import Mathlib

/-!
Verification of `deepchem/scripts/modeler.py`, the staged pipeline
orchestrator (featurize → train-test-split → fit → eval).

The Python module is shallowly embedded:

* A parsed `argparse` namespace is modelled two ways: as a structure whose
  fields are exactly the attributes the corresponding sub-parser sets
  (`ModelNamespace`, `FitNamespace`, `EvalNamespace`), and as an attribute
  map `AttrMap` (the namespace's `__dict__`) for the places where the source
  uses `getattr` / may hit `AttributeError`.  The builders `mkModelArgs`,
  `mkFitArgs`, `mkEvalArgs` record which attributes each sub-parser defines.
* Filesystem paths are lists of path components; `os.path.join dir name`
  appends one component.  The filesystem state is the list of directories
  that exist; `os.makedirs` creates a directory together with its missing
  ancestors and raises if the directory itself already exists.
* The four external collaborators (`featurize_inputs`, `train_test_split`,
  `fit_model`, `eval_trained_model`) are opaque: a run of the orchestrator
  returns the ordered trace of collaborator `Call`s it performs, plus the
  final directory state.  Exceptions are modelled with `Except PyError`.
-/

namespace Modeler

/-- A Python attribute value as it occurs in a parsed argparse namespace:
strings, ints, floats (modelled as rationals; they are only ever passed
through, never computed with), booleans, lists of strings, or `None`. -/
inductive Value where
  | str (s : String)
  | int (n : Int)
  | float (q : Rat)
  | bool (b : Bool)
  | strList (l : List String)
  | none
  deriving DecidableEq

/-- The Python exceptions the embedded code can raise. -/
inductive PyError where
  | attributeError (name : String)
  | fileExistsError (path : List String)
  | typeError
  deriving DecidableEq

/-- An argparse namespace viewed as its attribute dictionary. -/
abbrev AttrMap := List (String × Value)

/-- Python `getattr(args, name)`: looks the attribute up, raising
`AttributeError` when it is absent. -/
def getattr (args : AttrMap) (name : String) : Except PyError Value :=
  match args.lookup name with
  | some v => Except.ok v
  | Option.none => Except.error (PyError.attributeError name)

/-- The fixed parameter-name list of `extract_model_params`
(`modeler.py`, lines 216-218). -/
def model_param_names : List String :=
  ["nb_hidden", "learning_rate", "dropout",
   "nb_epoch", "decay", "batch_size", "loss_function",
   "activation", "momentum", "nesterov"]

/-- `extract_model_params(args)` (`modeler.py`, lines 212-221): the dict
comprehension `{param : getattr(args, param) for param in params}`, which
reads the attributes in list order and raises `AttributeError` at the first
absent one.  The resulting dict is represented as an association list in
insertion order (the ten names are pairwise distinct). -/
def extract_model_params (args : AttrMap) :
    Except PyError (List (String × Value)) :=
  model_param_names.mapM (fun param =>
    match getattr args param with
    | Except.ok v => Except.ok (param, v)
    | Except.error e => Except.error e)

/-- A filesystem path, as its list of components
(`os.path.join a b` appends a component). -/
abbrev Path := List String

/-- `os.path.join(dir, name)` for a single relative component. -/
def joinPath (dir : Path) (name : String) : Path := dir ++ [name]

/-- The filesystem state: the set of directories that currently exist,
kept as a list. -/
abbrev FsState := List Path

/-- Append a directory to the state if it is not already present. -/
def insertNew (fs : FsState) (d : Path) : FsState :=
  if d ∈ fs then fs else fs ++ [d]

/-- The proper ancestors of a path, shortest first
(for `["b", "data"]` this is `[["b"]]`). -/
def ancestors (p : Path) : List Path :=
  ((List.range p.length).map (fun k => p.take (k + 1))).dropLast

/-- `os.makedirs(p)`: raises `FileExistsError` when `p` already exists;
otherwise creates every missing ancestor of `p` and then `p` itself. -/
def makedirs (p : Path) (fs : FsState) : Except PyError FsState :=
  if p ∈ fs then Except.error (PyError.fileExistsError p)
  else Except.ok ((ancestors p ++ [p]).foldl insertNew fs)

/-- `ensure_exists(dirs)` (`modeler.py`, lines 223-226): for each directory
in order, `if not os.path.exists(directory): os.makedirs(directory)`. -/
def ensure_exists (dirs : List Path) (fs : FsState) :
    Except PyError FsState :=
  match dirs with
  | [] => Except.ok fs
  | d :: rest =>
      if d ∈ fs then ensure_exists rest fs
      else
        match makedirs d fs with
        | Except.ok fs' => ensure_exists rest fs'
        | Except.error e => Except.error e

theorem mem_insertNew_of_mem {fs : FsState} {x : Path} (d : Path)
    (h : x ∈ fs) : x ∈ insertNew fs d := by
  unfold insertNew
  split
  · exact h
  · exact List.mem_append_left _ h

theorem self_mem_insertNew (fs : FsState) (d : Path) : d ∈ insertNew fs d := by
  unfold insertNew
  split
  · assumption
  · exact List.mem_append_right _ (List.mem_singleton.mpr rfl)

theorem mem_foldl_insertNew_of_mem {fs : FsState} {x : Path}
    (l : List Path) (h : x ∈ fs) : x ∈ l.foldl insertNew fs := by
  induction l generalizing fs with
  | nil => exact h
  | cons d rest ih => exact ih (mem_insertNew_of_mem d h)

theorem makedirs_ok_mem {p : Path} {fs fs' : FsState}
    (h : makedirs p fs = Except.ok fs') : p ∈ fs' := by
  unfold makedirs at h
  split at h
  · cases h
  · cases h
    rw [List.foldl_append]
    simpa using self_mem_insertNew _ p

theorem makedirs_ok_sub {p : Path} {fs fs' : FsState} {x : Path}
    (h : makedirs p fs = Except.ok fs') (hx : x ∈ fs) : x ∈ fs' := by
  unfold makedirs at h
  split at h
  · cases h
  · cases h
    exact mem_foldl_insertNew_of_mem _ hx

theorem ensure_exists_ok (dirs : List Path) (fs : FsState) :
    ∃ fs', ensure_exists dirs fs = Except.ok fs' := by
  induction dirs generalizing fs with
  | nil => exact ⟨fs, rfl⟩
  | cons d rest ih =>
      by_cases hd : d ∈ fs
      · simpa [ensure_exists, hd] using ih fs
      · have hmk : makedirs d fs =
            Except.ok ((ancestors d ++ [d]).foldl insertNew fs) := by
          simp [makedirs, hd]
        simpa [ensure_exists, hd, hmk] using
          ih ((ancestors d ++ [d]).foldl insertNew fs)

theorem ensure_exists_sub {dirs : List Path} {fs fs' : FsState} {x : Path}
    (h : ensure_exists dirs fs = Except.ok fs') (hx : x ∈ fs) : x ∈ fs' := by
  induction dirs generalizing fs with
  | nil =>
      unfold ensure_exists at h
      cases h
      exact hx
  | cons d rest ih =>
      unfold ensure_exists at h
      split at h
      · exact ih h hx
      · revert h
        cases hmk : makedirs d fs with
        | ok fs₁ =>
            intro h
            exact ih h (makedirs_ok_sub hmk hx)
        | error e =>
            intro h
            cases h

theorem ensure_exists_mem {dirs : List Path} {fs fs' : FsState} {d : Path}
    (h : ensure_exists dirs fs = Except.ok fs') (hd : d ∈ dirs) : d ∈ fs' := by
  induction dirs generalizing fs with
  | nil => cases hd
  | cons e rest ih =>
      unfold ensure_exists at h
      rcases List.mem_cons.mp hd with heq | hmem
      · subst heq
        split at h
        · exact ensure_exists_sub h (by assumption)
        · revert h
          cases hmk : makedirs d fs with
          | ok fs₁ =>
              intro h
              exact ensure_exists_sub h (makedirs_ok_mem hmk)
          | error e' =>
              intro h
              cases h
      · split at h
        · exact ih h hmem
        · revert h
          cases hmk : makedirs e fs with
          | ok fs₁ =>
              intro h
              exact ih h hmem
          | error e' =>
              intro h
              cases h

theorem ensure_exists_of_all_mem {dirs : List Path} {fs : FsState}
    (h : ∀ d ∈ dirs, d ∈ fs) : ensure_exists dirs fs = Except.ok fs := by
  induction dirs with
  | nil => rfl
  | cons d rest ih =>
      have hd : d ∈ fs := h d (List.mem_cons_self d rest)
      simp only [ensure_exists, hd, if_pos]
      exact ih (fun e he => h e (List.mem_cons_of_mem d he))

/-- The parsed namespace of the `model` subcommand: exactly the attributes
set by `add_model_command` (`modeler.py`, lines 186-210) — the four skip
flags and `base_dir`, plus the featurize group (lines 20-49), the transforms
group (lines 51-81) and the model group (lines 98-141).  The `func` dispatch
attribute set by `set_defaults` is not modelled; no embedded code reads it. -/
structure ModelNamespace where
  skip_featurization : Bool
  skip_train_test_split : Bool
  skip_fit : Bool
  skip_eval : Bool
  base_dir : Path
  input_files : List String
  user_specified_features : Option (List String)
  tasks : List String
  split_field : Option String
  smiles_field : String
  id_field : Option String
  threshold : Option Rat
  feature_dir : Option Path
  input_transforms : List String
  output_transforms : List String
  mode : String
  feature_types : List String
  splittype : String
  weight_positives : Bool
  model : String
  nb_hidden : Int
  learning_rate : Rat
  dropout : Rat
  nb_epoch : Int
  batch_size : Int
  loss_function : String
  decay : Rat
  activation : String
  momentum : Rat
  nesterov : Bool
  deriving DecidableEq

/-- Encode an optional string attribute (default `None`). -/
def optStr : Option String → Value
  | some s => Value.str s
  | Option.none => Value.none

/-- Encode an optional string-list attribute (default `None`). -/
def optStrList : Option (List String) → Value
  | some l => Value.strList l
  | Option.none => Value.none

/-- Encode an optional float attribute (default `None`). -/
def optFloat : Option Rat → Value
  | some q => Value.float q
  | Option.none => Value.none

/-- The attribute dictionary of a parsed `model`-subcommand namespace:
every attribute `add_model_command` and its three argument groups define. -/
def mkModelArgs (ns : ModelNamespace) : AttrMap :=
  [("skip_featurization", Value.bool ns.skip_featurization),
   ("skip_train_test_split", Value.bool ns.skip_train_test_split),
   ("skip_fit", Value.bool ns.skip_fit),
   ("skip_eval", Value.bool ns.skip_eval),
   ("base_dir", Value.strList ns.base_dir),
   ("input_files", Value.strList ns.input_files),
   ("user_specified_features", optStrList ns.user_specified_features),
   ("tasks", Value.strList ns.tasks),
   ("split_field", optStr ns.split_field),
   ("smiles_field", Value.str ns.smiles_field),
   ("id_field", optStr ns.id_field),
   ("threshold", optFloat ns.threshold),
   ("feature_dir", optStrList ns.feature_dir),
   ("input_transforms", Value.strList ns.input_transforms),
   ("output_transforms", Value.strList ns.output_transforms),
   ("mode", Value.str ns.mode),
   ("feature_types", Value.strList ns.feature_types),
   ("splittype", Value.str ns.splittype),
   ("weight_positives", Value.bool ns.weight_positives),
   ("model", Value.str ns.model),
   ("nb_hidden", Value.int ns.nb_hidden),
   ("learning_rate", Value.float ns.learning_rate),
   ("dropout", Value.float ns.dropout),
   ("nb_epoch", Value.int ns.nb_epoch),
   ("batch_size", Value.int ns.batch_size),
   ("loss_function", Value.str ns.loss_function),
   ("decay", Value.float ns.decay),
   ("activation", Value.str ns.activation),
   ("momentum", Value.float ns.momentum),
   ("nesterov", Value.bool ns.nesterov)]

/-- One invocation of an external collaborator, with the exact arguments the
orchestrator passes (argument order follows the Python call sites). -/
inductive Call where
  | featurize (feature_dir : Path) (input_files : List String)
      (user_specified_features : Option (List String)) (tasks : List String)
      (smiles_field : String) (split_field : Option String)
      (id_field : Option String) (threshold : Option Rat)
  | trainTestSplit (paths : List Path)
      (input_transforms output_transforms feature_types : List String)
      (splittype mode : String) (data_dir : Path)
  | fitModel (model_name : String) (model_params : List (String × Value))
      (model_dir data_dir : Path)
  | evalTrainedModel (model_name : String) (model_dir eval_dir : Path)
      (csv_out stats_out : Path) (output_transforms : List String)
      (split : String)
  deriving DecidableEq

/-- `create_model(args)` (`modeler.py`, lines 228-279): derives the artifact
layout from `base_dir`, materializes it with `ensure_exists`, then runs the
featurize / split / fit / eval-on-train / eval-on-test stages in order,
each collaborator call guarded by its `if not args.skip_*` test exactly as
in the source.  Returns the final directory state and the ordered trace of
collaborator calls.  In the source, `csv_out_test` and `stats_out_test` are
bound inside the first `if not args.skip_fit` block (lines 264-268) and read
in the second block (lines 275-279), which is guarded by the same unchanged
condition; here each block recomputes them, which is equivalent. -/
def create_model (args : ModelNamespace) (fs : FsState) :
    Except PyError (FsState × List Call) :=
  let base_dir := args.base_dir
  let feature_dir := joinPath base_dir "features"
  let data_dir := joinPath base_dir "data"
  let model_dir := joinPath base_dir "model"
  match ensure_exists [base_dir, feature_dir, data_dir, model_dir] fs with
  | Except.error e => Except.error e
  | Except.ok fs' =>
    let model_name := args.model
    let featurize_calls :=
      if !args.skip_featurization then
        [Call.featurize feature_dir args.input_files
          args.user_specified_features args.tasks
          args.smiles_field args.split_field args.id_field args.threshold]
      else []
    let paths := [feature_dir]
    let split_calls :=
      if !args.skip_train_test_split then
        [Call.trainTestSplit paths args.input_transforms
          args.output_transforms args.feature_types
          args.splittype args.mode data_dir]
      else []
    let fit_calls_res :=
      if !args.skip_fit then
        match extract_model_params (mkModelArgs args) with
        | Except.error e => Except.error e
        | Except.ok model_params =>
            Except.ok [Call.fitModel model_name model_params model_dir data_dir]
      else Except.ok []
    match fit_calls_res with
    | Except.error e => Except.error e
    | Except.ok fit_calls =>
      let eval_train_calls :=
        if !args.skip_fit then
          let csv_out_train := joinPath data_dir "train.csv"
          let stats_out_train := joinPath data_dir "train-stats.txt"
          let train_dir := joinPath data_dir "train"
          [Call.evalTrainedModel model_name model_dir train_dir
            csv_out_train stats_out_train args.output_transforms "train"]
        else []
      let eval_test_calls :=
        if !args.skip_fit then
          let csv_out_test := joinPath data_dir "test.csv"
          let stats_out_test := joinPath data_dir "test-stats.txt"
          let test_dir := joinPath data_dir "test"
          [Call.evalTrainedModel model_name model_dir test_dir
            csv_out_test stats_out_test args.output_transforms "test"]
        else []
      Except.ok (fs', featurize_calls ++ split_calls ++ fit_calls ++
        eval_train_calls ++ eval_test_calls)

/-- The parsed namespace of the `fit` subcommand: exactly the attributes set
by `add_fit_command` (`modeler.py`, lines 143-156) — `data_dir`, the model
group (`model` and the ten neural-net parameters, lines 98-141), and
`model_dir`.  No attribute named `model_name` is ever set. -/
structure FitNamespace where
  data_dir : Path
  model : String
  nb_hidden : Int
  learning_rate : Rat
  dropout : Rat
  nb_epoch : Int
  batch_size : Int
  loss_function : String
  decay : Rat
  activation : String
  momentum : Rat
  nesterov : Bool
  model_dir : Path
  deriving DecidableEq

/-- The attribute dictionary of a parsed `fit`-subcommand namespace. -/
def mkFitArgs (ns : FitNamespace) : AttrMap :=
  [("data_dir", Value.strList ns.data_dir),
   ("model", Value.str ns.model),
   ("nb_hidden", Value.int ns.nb_hidden),
   ("learning_rate", Value.float ns.learning_rate),
   ("dropout", Value.float ns.dropout),
   ("nb_epoch", Value.int ns.nb_epoch),
   ("batch_size", Value.int ns.batch_size),
   ("loss_function", Value.str ns.loss_function),
   ("decay", Value.float ns.decay),
   ("activation", Value.str ns.activation),
   ("momentum", Value.float ns.momentum),
   ("nesterov", Value.bool ns.nesterov),
   ("model_dir", Value.strList ns.model_dir)]

/-- The parsed namespace of the `eval` subcommand: exactly the attributes
set by `add_eval_command` (`modeler.py`, lines 158-175) — `saved_model`,
`saved_data`, `csv_out`, `stats_out`.  No `model`, `model_dir`, `data_dir`
or `output_transforms` attribute is ever set by this sub-parser. -/
structure EvalNamespace where
  saved_model : Path
  saved_data : Path
  csv_out : Path
  stats_out : Path
  deriving DecidableEq

/-- The attribute dictionary of a parsed `eval`-subcommand namespace. -/
def mkEvalArgs (ns : EvalNamespace) : AttrMap :=
  [("saved_model", Value.strList ns.saved_model),
   ("saved_data", Value.strList ns.saved_data),
   ("csv_out", Value.strList ns.csv_out),
   ("stats_out", Value.strList ns.stats_out)]

/-- Read an attribute that must be a string. -/
def asStr (v : Value) : Except PyError String :=
  match v with
  | Value.str s => Except.ok s
  | _ => Except.error PyError.typeError

/-- Read an attribute that must be a path (a string in Python, a component
list here). -/
def asPath (v : Value) : Except PyError Path :=
  match v with
  | Value.strList l => Except.ok l
  | _ => Except.error PyError.typeError

/-- Read an attribute that must be a list of strings. -/
def asStrList (v : Value) : Except PyError (List String) :=
  match v with
  | Value.strList l => Except.ok l
  | _ => Except.error PyError.typeError

/-- `fit_model_wrapper(args)` (`modeler.py`, lines 310-314): computes the
hyperparameter bundle, then evaluates the call arguments of
`fit_model(args.model_name, model_params, args.model_dir, args.data_dir)`
left to right — beginning with the attribute read `args.model_name` —
and performs the `fit_model` call. -/
def fit_model_wrapper (args : AttrMap) : Except PyError (List Call) :=
  match extract_model_params args with
  | Except.error e => Except.error e
  | Except.ok model_params =>
    match getattr args "model_name" with
    | Except.error e => Except.error e
    | Except.ok v₁ =>
      match asStr v₁ with
      | Except.error e => Except.error e
      | Except.ok model_name =>
        match getattr args "model_dir" with
        | Except.error e => Except.error e
        | Except.ok v₂ =>
          match asPath v₂ with
          | Except.error e => Except.error e
          | Except.ok model_dir =>
            match getattr args "data_dir" with
            | Except.error e => Except.error e
            | Except.ok v₃ =>
              match asPath v₃ with
              | Except.error e => Except.error e
              | Except.ok data_dir =>
                Except.ok [Call.fitModel model_name model_params
                  model_dir data_dir]

/-- `eval_trained_model_wrapper(args)` (`modeler.py`, lines 316-320):
evaluates the call arguments of `eval_trained_model(args.model,
args.model_dir, args.data_dir, args.csv_out, args.stats_out,
args.output_transforms, split="test")` left to right — beginning with the
attribute read `args.model` — and performs the `eval_trained_model` call. -/
def eval_trained_model_wrapper (args : AttrMap) : Except PyError (List Call) :=
  match getattr args "model" with
  | Except.error e => Except.error e
  | Except.ok v₀ =>
    match asStr v₀ with
    | Except.error e => Except.error e
    | Except.ok model =>
      match getattr args "model_dir" with
      | Except.error e => Except.error e
      | Except.ok v₁ =>
        match asPath v₁ with
        | Except.error e => Except.error e
        | Except.ok model_dir =>
          match getattr args "data_dir" with
          | Except.error e => Except.error e
          | Except.ok v₂ =>
            match asPath v₂ with
            | Except.error e => Except.error e
            | Except.ok data_dir =>
              match getattr args "csv_out" with
              | Except.error e => Except.error e
              | Except.ok v₃ =>
                match asPath v₃ with
                | Except.error e => Except.error e
                | Except.ok csv_out =>
                  match getattr args "stats_out" with
                  | Except.error e => Except.error e
                  | Except.ok v₄ =>
                    match asPath v₄ with
                    | Except.error e => Except.error e
                    | Except.ok stats_out =>
                      match getattr args "output_transforms" with
                      | Except.error e => Except.error e
                      | Except.ok v₅ =>
                        match asStrList v₅ with
                        | Except.error e => Except.error e
                        | Except.ok output_transforms =>
                          Except.ok [Call.evalTrainedModel model model_dir
                            data_dir csv_out stats_out output_transforms
                            "test"]

/-- The collaborator-call trace of a finished orchestrator run
(empty when the run raised). -/
def calls_of (r : Except PyError (FsState × List Call)) : List Call :=
  match r with
  | Except.ok p => p.2
  | Except.error _ => []

/-- The final directory state of a finished orchestrator run
(empty when the run raised). -/
def fs_of (r : Except PyError (FsState × List Call)) : FsState :=
  match r with
  | Except.ok p => p.1
  | Except.error _ => []

/-- Whether a run finished without raising. -/
def run_ok (r : Except PyError (FsState × List Call)) : Bool :=
  match r with
  | Except.ok _ => true
  | Except.error _ => false

/-- Recognizer for `featurize_inputs` calls. -/
def isFeaturizeCall : Call → Bool
  | Call.featurize .. => true
  | _ => false

/-- Recognizer for `train_test_split` calls. -/
def isSplitCall : Call → Bool
  | Call.trainTestSplit .. => true
  | _ => false

/-- Recognizer for `fit_model` calls. -/
def isFitCall : Call → Bool
  | Call.fitModel .. => true
  | _ => false

/-- Recognizer for `eval_trained_model` calls. -/
def isEvalCall : Call → Bool
  | Call.evalTrainedModel .. => true
  | _ => false

/-- The pipeline stage a collaborator call belongs to, in execution order. -/
def stageOf : Call → Nat
  | Call.featurize .. => 0
  | Call.trainTestSplit .. => 1
  | Call.fitModel .. => 2
  | Call.evalTrainedModel .. => 3

/-- The `data_dir` argument of a `fit_model` call. -/
def fitDataDir : Call → Option Path
  | Call.fitModel _ _ _ data_dir => some data_dir
  | _ => Option.none

/-- The `data_dir` argument of a `train_test_split` call. -/
def splitDataDir : Call → Option Path
  | Call.trainTestSplit _ _ _ _ _ _ data_dir => some data_dir
  | _ => Option.none

/-- The `paths` argument of a `train_test_split` call. -/
def splitPaths : Call → Option (List Path)
  | Call.trainTestSplit paths _ _ _ _ _ _ => some paths
  | _ => Option.none

/-- The value of `extract_model_params` on a `model`-subcommand namespace:
the ten hyperparameter attributes in the fixed order of
`model_param_names`. -/
def model_fit_params (ns : ModelNamespace) : List (String × Value) :=
  [("nb_hidden", Value.int ns.nb_hidden),
   ("learning_rate", Value.float ns.learning_rate),
   ("dropout", Value.float ns.dropout),
   ("nb_epoch", Value.int ns.nb_epoch),
   ("decay", Value.float ns.decay),
   ("batch_size", Value.int ns.batch_size),
   ("loss_function", Value.str ns.loss_function),
   ("activation", Value.str ns.activation),
   ("momentum", Value.float ns.momentum),
   ("nesterov", Value.bool ns.nesterov)]

theorem extract_model_params_mkModelArgs (ns : ModelNamespace) :
    extract_model_params (mkModelArgs ns) = Except.ok (model_fit_params ns) :=
  rfl

/-- The collaborator-call trace `create_model` performs, stage by stage. -/
def model_pipeline_calls (ns : ModelNamespace) : List Call :=
  (if !ns.skip_featurization then
    [Call.featurize (joinPath ns.base_dir "features") ns.input_files
      ns.user_specified_features ns.tasks ns.smiles_field ns.split_field
      ns.id_field ns.threshold]
   else []) ++
  (if !ns.skip_train_test_split then
    [Call.trainTestSplit [joinPath ns.base_dir "features"]
      ns.input_transforms ns.output_transforms ns.feature_types
      ns.splittype ns.mode (joinPath ns.base_dir "data")]
   else []) ++
  (if !ns.skip_fit then
    [Call.fitModel ns.model (model_fit_params ns)
      (joinPath ns.base_dir "model") (joinPath ns.base_dir "data")]
   else []) ++
  (if !ns.skip_fit then
    [Call.evalTrainedModel ns.model (joinPath ns.base_dir "model")
      (joinPath (joinPath ns.base_dir "data") "train")
      (joinPath (joinPath ns.base_dir "data") "train.csv")
      (joinPath (joinPath ns.base_dir "data") "train-stats.txt")
      ns.output_transforms "train"]
   else []) ++
  (if !ns.skip_fit then
    [Call.evalTrainedModel ns.model (joinPath ns.base_dir "model")
      (joinPath (joinPath ns.base_dir "data") "test")
      (joinPath (joinPath ns.base_dir "data") "test.csv")
      (joinPath (joinPath ns.base_dir "data") "test-stats.txt")
      ns.output_transforms "test"]
   else [])

theorem create_model_run (ns : ModelNamespace) (fs : FsState) :
    ∃ fs', ensure_exists [ns.base_dir, joinPath ns.base_dir "features",
        joinPath ns.base_dir "data", joinPath ns.base_dir "model"] fs =
          Except.ok fs' ∧
      create_model ns fs = Except.ok (fs', model_pipeline_calls ns) := by
  obtain ⟨fs', h⟩ := ensure_exists_ok
    [ns.base_dir, joinPath ns.base_dir "features",
     joinPath ns.base_dir "data", joinPath ns.base_dir "model"] fs
  refine ⟨fs', h, ?_⟩
  cases hfit : ns.skip_fit <;>
    simp [create_model, model_pipeline_calls, h, hfit,
      extract_model_params_mkModelArgs]

/-- A `model`-subcommand namespace with every optional flag at its argparse
default (`modeler.py` defaults: `smiles_field="smiles"`, `nb_hidden=500`,
`learning_rate=0.01`, `dropout=0.5`, `nb_epoch=50`, `batch_size=32`,
`loss_function="mean_squared_error"`, `decay=1e-4`, `activation="relu"`,
`momentum=0.9`, `nesterov=False`), used as a concrete test input. -/
def sampleModelNs : ModelNamespace :=
  { skip_featurization := false, skip_train_test_split := false,
    skip_fit := false, skip_eval := false,
    base_dir := ["b"], input_files := ["in.csv"],
    user_specified_features := Option.none, tasks := ["t"],
    split_field := Option.none, smiles_field := "smiles",
    id_field := Option.none, threshold := Option.none,
    feature_dir := Option.none,
    input_transforms := [], output_transforms := [],
    mode := "singletask", feature_types := ["ECFP"],
    splittype := "scaffold", weight_positives := false,
    model := "logistic", nb_hidden := 500, learning_rate := 1/100,
    dropout := 1/2, nb_epoch := 50, batch_size := 32,
    loss_function := "mean_squared_error", decay := 1/10000,
    activation := "relu", momentum := 9/10, nesterov := false }

theorem extract_ok_aux (args : AttrMap) (v : String → Value) :
    ∀ l : List String, (∀ p ∈ l, getattr args p = Except.ok (v p)) →
      l.mapM (fun param =>
        match getattr args param with
        | Except.ok w => Except.ok (param, w)
        | Except.error e => Except.error e) =
      Except.ok (l.map (fun p => (p, v p))) := by
  intro l
  induction l with
  | nil => intro _; rfl
  | cons p rest ih =>
      intro h
      have hp := h p (List.mem_cons_self p rest)
      have hrest := ih (fun q hq => h q (List.mem_cons_of_mem p hq))
      simp only [List.mapM_cons, hp, hrest]
      rfl

/-- C3: on any args object carrying all ten requested hyperparameter
attributes, `extract_model_params` returns the mapping whose keys are
exactly the ten requested names, in order, each bound to the corresponding
attribute value; it is a pure function (no side effects by construction). -/
theorem extract_model_params_complete (args : AttrMap) (v : String → Value)
    (h : ∀ p ∈ model_param_names, getattr args p = Except.ok (v p)) :
    extract_model_params args =
      Except.ok (model_param_names.map (fun p => (p, v p))) ∧
    (model_param_names.map (fun p => (p, v p))).map Prod.fst =
      model_param_names := by
  refine ⟨?_, by rfl⟩
  unfold extract_model_params
  exact extract_ok_aux args v model_param_names h

/-- A concrete args object carrying exactly the ten hyperparameter
attributes, each bound to the integer 7. -/
def sampleParamArgs : AttrMap := model_param_names.map (fun p => (p, Value.int 7))

theorem extract_model_params_complete_witness :
    extract_model_params sampleParamArgs =
      Except.ok (model_param_names.map (fun p => (p, Value.int 7))) :=
  (extract_model_params_complete sampleParamArgs (fun _ => Value.int 7)
    (by intro p hp; fin_cases hp <;> rfl)).1

theorem extract_error_aux (args : AttrMap) :
    ∀ l : List String,
      ∀ q : String, l.find? (fun p => (args.lookup p).isNone) = some q →
      l.mapM (fun param =>
        match getattr args param with
        | Except.ok w => Except.ok (param, w)
        | Except.error e => Except.error e) =
      Except.error (PyError.attributeError q) := by
  intro l
  induction l with
  | nil => intro q hq; cases hq
  | cons p rest ih =>
      intro q hq
      cases hl : args.lookup p with
      | none =>
          have hqp : q = p := by
            rw [List.find?_cons_of_pos] at hq
            · exact (Option.some_inj.mp hq).symm
            · simp [hl]
          subst hqp
          have hget : getattr args q = Except.error (PyError.attributeError q) := by
            simp [getattr, hl]
          simp only [List.mapM_cons, hget]
          rfl
      | some w =>
          have hrest : rest.find? (fun p => (args.lookup p).isNone) = some q := by
            rwa [List.find?_cons_of_neg] at hq
            simp [hl]
          have hget : getattr args p = Except.ok w := by
            simp [getattr, hl]
          simp only [List.mapM_cons, hget, ih q hrest]
          rfl

/-- C4: on any args object lacking at least one of the ten requested
hyperparameter attributes, `extract_model_params` raises `AttributeError`
for the first absent name (`q` is that name: the first entry of
`model_param_names` whose lookup fails) and produces no partial mapping —
the error is the entire result, and the function has no other effects. -/
theorem extract_model_params_missing (args : AttrMap) (q : String)
    (h : model_param_names.find? (fun p => (args.lookup p).isNone) = some q) :
    q ∈ model_param_names ∧ args.lookup q = Option.none ∧
    extract_model_params args = Except.error (PyError.attributeError q) := by
  refine ⟨List.mem_of_find?_eq_some h, ?_, ?_⟩
  · have := List.find?_some h
    simpa [Option.isNone_iff_eq_none] using this
  · unfold extract_model_params
    exact extract_error_aux args model_param_names q h

/-- A concrete args object that carries `nb_hidden` but lacks the other
nine requested hyperparameter attributes. -/
def missingParamArgs : AttrMap := [("nb_hidden", Value.int 5)]

theorem extract_model_params_missing_witness :
    extract_model_params missingParamArgs =
      Except.error (PyError.attributeError "learning_rate") :=
  (extract_model_params_missing missingParamArgs "learning_rate" rfl).2.2

/-- C6: materializing the directory layout is idempotent — a second
`ensure_exists` over the same directory list returns the very same
filesystem state and raises no error (creating an already-existing
directory is skipped by the `os.path.exists` guard, never an error). -/
theorem ensure_exists_idempotent (dirs : List Path) (fs fs' : FsState)
    (h : ensure_exists dirs fs = Except.ok fs') :
    ensure_exists dirs fs' = Except.ok fs' :=
  ensure_exists_of_all_mem (fun _ hd => ensure_exists_mem h hd)

theorem ensure_exists_idempotent_witness :
    ensure_exists [["a"], ["a", "b"]] [] = Except.ok [["a"], ["a", "b"]] ∧
    ensure_exists [["a"], ["a", "b"]] [["a"], ["a", "b"]] =
      Except.ok [["a"], ["a", "b"]] :=
  ⟨rfl, ensure_exists_idempotent [["a"], ["a", "b"]] []
    [["a"], ["a", "b"]] rfl⟩

/-- C2: in the `model` subcommand, the two `eval_trained_model` invocations
happen if and only if `--skip-fit` is not set — when `skip_fit` is unset
the trace contains exactly one eval call for the train split and one for
the test split (in that order); when `skip_fit` is set it contains none,
whatever the rest of the configuration or the pre-existing filesystem
state (in particular a previously fit model under `base/model`). -/
theorem eval_calls_gated_by_skip_fit (ns : ModelNamespace) (fs : FsState) :
    (∃ r, create_model ns fs = Except.ok r) ∧
    (calls_of (create_model ns fs)).filter isEvalCall =
      (if ns.skip_fit then [] else
        [Call.evalTrainedModel ns.model (joinPath ns.base_dir "model")
          (joinPath (joinPath ns.base_dir "data") "train")
          (joinPath (joinPath ns.base_dir "data") "train.csv")
          (joinPath (joinPath ns.base_dir "data") "train-stats.txt")
          ns.output_transforms "train",
         Call.evalTrainedModel ns.model (joinPath ns.base_dir "model")
          (joinPath (joinPath ns.base_dir "data") "test")
          (joinPath (joinPath ns.base_dir "data") "test.csv")
          (joinPath (joinPath ns.base_dir "data") "test-stats.txt")
          ns.output_transforms "test"]) := by
  obtain ⟨fs', -, hrun⟩ := create_model_run ns fs
  refine ⟨⟨_, hrun⟩, ?_⟩
  rw [hrun]
  cases hf : ns.skip_featurization <;>
    cases hs : ns.skip_train_test_split <;>
      cases hfit : ns.skip_fit <;>
        simp [calls_of, model_pipeline_calls, hf, hs, hfit, isEvalCall]

/-- C7: whenever the Split stage runs (`--skip-train-test-split` unset),
`train_test_split` receives as `paths` exactly the one-element list
`[base_dir/features]` and as `data_dir` the layout's `base_dir/data`; the
Featurize stage, when it runs, receives that same `base_dir/features`
directory, so the split never reads a path other than the one the
featurize stage was given. -/
theorem split_receives_feature_dir (ns : ModelNamespace) (fs : FsState) :
    (∃ r, create_model ns fs = Except.ok r) ∧
    (calls_of (create_model ns fs)).filter isSplitCall =
      (if ns.skip_train_test_split then [] else
        [Call.trainTestSplit [joinPath ns.base_dir "features"]
          ns.input_transforms ns.output_transforms ns.feature_types
          ns.splittype ns.mode (joinPath ns.base_dir "data")]) ∧
    (calls_of (create_model ns fs)).filter isFeaturizeCall =
      (if ns.skip_featurization then [] else
        [Call.featurize (joinPath ns.base_dir "features") ns.input_files
          ns.user_specified_features ns.tasks ns.smiles_field ns.split_field
          ns.id_field ns.threshold]) := by
  obtain ⟨fs', -, hrun⟩ := create_model_run ns fs
  refine ⟨⟨_, hrun⟩, ?_, ?_⟩ <;>
    rw [hrun] <;>
      cases hf : ns.skip_featurization <;>
        cases hs : ns.skip_train_test_split <;>
          cases hfit : ns.skip_fit <;>
            simp [calls_of, model_pipeline_calls, hf, hs, hfit,
              isSplitCall, isFeaturizeCall]

/-- The `model`-subcommand configuration in which only `--skip-eval` is
set: `skip_eval` is true, `skip_fit` (and the other skip flags) false. -/
def skipEvalNs : ModelNamespace := { sampleModelNs with skip_eval := true }

/-- C1 fails on the code: with `--skip-eval` set alone (`skip_fit` unset),
both `eval_trained_model` calls still happen — the trace of the run
contains two eval calls, not zero.  The `skip_eval` flag is parsed but
never read by `create_model`. -/
theorem skip_eval_counterexample :
    skipEvalNs.skip_eval = true ∧ skipEvalNs.skip_fit = false ∧
    (calls_of (create_model skipEvalNs [])).countP isEvalCall = 2 :=
  ⟨rfl, rfl, rfl⟩

/-- C1 amended: `--skip-featurization`, `--skip-train-test-split` and
`--skip-fit` are independently settable and each prevents its own stage's
collaborator call while the pipeline still advances; however `--skip-fit`
additionally gates both `eval_trained_model` calls, and `--skip-eval`,
though independently settable, has no effect on which collaborators run. -/
theorem skip_flags_amended (ns : ModelNamespace) (fs : FsState) (b : Bool) :
    (∃ r, create_model ns fs = Except.ok r) ∧
    (calls_of (create_model ns fs)).any isFeaturizeCall =
      !ns.skip_featurization ∧
    (calls_of (create_model ns fs)).any isSplitCall =
      !ns.skip_train_test_split ∧
    (calls_of (create_model ns fs)).any isFitCall = !ns.skip_fit ∧
    (calls_of (create_model ns fs)).any isEvalCall = !ns.skip_fit ∧
    calls_of (create_model { ns with skip_eval := b } fs) =
      calls_of (create_model ns fs) := by
  obtain ⟨fs', -, hrun⟩ := create_model_run ns fs
  obtain ⟨fs'', -, hrun'⟩ := create_model_run { ns with skip_eval := b } fs
  refine ⟨⟨_, hrun⟩, ?_, ?_, ?_, ?_, ?_⟩
  · rw [hrun]
    cases hf : ns.skip_featurization <;>
      cases hs : ns.skip_train_test_split <;>
        cases hfit : ns.skip_fit <;>
          simp [calls_of, model_pipeline_calls, hf, hs, hfit,
            isFeaturizeCall, isSplitCall, isFitCall, isEvalCall]
  · rw [hrun]
    cases hf : ns.skip_featurization <;>
      cases hs : ns.skip_train_test_split <;>
        cases hfit : ns.skip_fit <;>
          simp [calls_of, model_pipeline_calls, hf, hs, hfit,
            isFeaturizeCall, isSplitCall, isFitCall, isEvalCall]
  · rw [hrun]
    cases hf : ns.skip_featurization <;>
      cases hs : ns.skip_train_test_split <;>
        cases hfit : ns.skip_fit <;>
          simp [calls_of, model_pipeline_calls, hf, hs, hfit,
            isFeaturizeCall, isSplitCall, isFitCall, isEvalCall]
  · rw [hrun]
    cases hf : ns.skip_featurization <;>
      cases hs : ns.skip_train_test_split <;>
        cases hfit : ns.skip_fit <;>
          simp [calls_of, model_pipeline_calls, hf, hs, hfit,
            isFeaturizeCall, isSplitCall, isFitCall, isEvalCall]
  · rw [hrun, hrun']
    rfl

/-- The `model`-subcommand configuration in which every skip flag is set,
so that no collaborator runs and the filesystem is touched only by the
layout-materialization step. -/
def allSkipNs : ModelNamespace :=
  { sampleModelNs with
    skip_featurization := true
    skip_train_test_split := true
    skip_fit := true
    skip_eval := true }

/-- C5 fails on the code: the layout-materialization step of `create_model`
creates `base`, `base/features`, `base/data` and `base/model`, but not the
`data/train` and `data/test` subtrees the claim includes — after a run in
which every stage is skipped (so only materialization touches the
filesystem), `b/data` exists while `b/data/train` and `b/data/test` do
not. -/
theorem materialize_counterexample :
    run_ok (create_model allSkipNs []) = true ∧
    ["b", "data"] ∈ fs_of (create_model allSkipNs []) ∧
    ["b", "data", "train"] ∉ fs_of (create_model allSkipNs []) ∧
    ["b", "data", "test"] ∉ fs_of (create_model allSkipNs []) := by
  refine ⟨rfl, by decide, by decide, by decide⟩

/-- C5 amended: for every base directory and starting filesystem state, the
layout-materialization step of the `model` subcommand (the `ensure_exists`
call, which precedes every stage call) ensures that the base directory,
`base/features`, `base/data` and `base/model` all exist; the `data/train`
and `data/test` subtrees are left for the Split collaborator to create. -/
theorem materialize_amended (ns : ModelNamespace) (fs : FsState) :
    ∃ fs', create_model ns fs = Except.ok (fs', model_pipeline_calls ns) ∧
      ns.base_dir ∈ fs' ∧ joinPath ns.base_dir "features" ∈ fs' ∧
      joinPath ns.base_dir "data" ∈ fs' ∧
      joinPath ns.base_dir "model" ∈ fs' := by
  obtain ⟨fs', hens, hrun⟩ := create_model_run ns fs
  exact ⟨fs', hrun,
    ensure_exists_mem hens (by simp),
    ensure_exists_mem hens (by simp),
    ensure_exists_mem hens (by simp),
    ensure_exists_mem hens (by simp)⟩

theorem pipeline_calls_sorted (ns : ModelNamespace) :
    (model_pipeline_calls ns).Pairwise (fun a b => stageOf a ≤ stageOf b) := by
  cases hf : ns.skip_featurization <;>
    cases hs : ns.skip_train_test_split <;>
      cases hfit : ns.skip_fit <;>
        simp [model_pipeline_calls, hf, hs, hfit, List.pairwise_append,
          List.pairwise_cons, stageOf]

theorem pairwise_stage_index {l : List Call}
    (hp : l.Pairwise (fun a b => stageOf a ≤ stageOf b))
    {i j : Nat} {ci cj : Call} (hi : l[i]? = some ci) (hj : l[j]? = some cj)
    (hst : stageOf ci < stageOf cj) : i < j := by
  obtain ⟨hil, hie⟩ := List.getElem?_eq_some_iff.mp hi
  obtain ⟨hjl, hje⟩ := List.getElem?_eq_some_iff.mp hj
  by_contra hcon
  push_neg at hcon
  rcases Nat.eq_or_lt_of_le hcon with heq | hlt
  · subst heq
    have hcc : ci = cj := hie.symm.trans hje
    exact Nat.lt_irrefl _ (hcc ▸ hst)
  · have hle := List.pairwise_iff_getElem.mp hp j i hjl hil hlt
    rw [hie, hje] at hle
    omega

/-- C8: in any run of the `model` subcommand, every `fit_model` call occurs
strictly after every `train_test_split` call in the trace (so Fit never
precedes the Split transition; when Split is skipped the ordering claim is
vacuous and the stage is trusted), and the `data_dir` handed to `fit_model`
is the very `base_dir/data` path handed to `train_test_split` — both are
the single layout-computed path. -/
theorem fit_after_split (ns : ModelNamespace) (fs fs' : FsState)
    (calls : List Call)
    (h : create_model ns fs = Except.ok (fs', calls)) :
    (∀ (i j : Nat) (ci cj : Call), calls[i]? = some ci →
      calls[j]? = some cj →
      isSplitCall ci = true → isFitCall cj = true → i < j) ∧
    calls.filter isFitCall =
      (if ns.skip_fit then [] else
        [Call.fitModel ns.model (model_fit_params ns)
          (joinPath ns.base_dir "model") (joinPath ns.base_dir "data")]) ∧
    calls.filter isSplitCall =
      (if ns.skip_train_test_split then [] else
        [Call.trainTestSplit [joinPath ns.base_dir "features"]
          ns.input_transforms ns.output_transforms ns.feature_types
          ns.splittype ns.mode (joinPath ns.base_dir "data")]) := by
  obtain ⟨fs₀, -, hrun⟩ := create_model_run ns fs
  rw [hrun] at h
  have hcalls : model_pipeline_calls ns = calls :=
    congrArg Prod.snd (Except.ok.inj h)
  subst hcalls
  refine ⟨?_, ?_, ?_⟩
  · intro i j ci cj hi hj hsi hfj
    have hsti : stageOf ci = 1 := by
      cases ci <;> simp_all [isSplitCall, stageOf]
    have hstj : stageOf cj = 2 := by
      cases cj <;> simp_all [isFitCall, stageOf]
    exact pairwise_stage_index (pipeline_calls_sorted ns) hi hj (by omega)
  · cases hf : ns.skip_featurization <;>
      cases hs : ns.skip_train_test_split <;>
        cases hfit : ns.skip_fit <;>
          simp [model_pipeline_calls, hf, hs, hfit, isFitCall]
  · cases hf : ns.skip_featurization <;>
      cases hs : ns.skip_train_test_split <;>
        cases hfit : ns.skip_fit <;>
          simp [model_pipeline_calls, hf, hs, hfit, isSplitCall]

/-- The directory state a fresh full run under base `["b"]` materializes. -/
def sampleFs : FsState := [["b"], ["b", "features"], ["b", "data"], ["b", "model"]]

/-- The collaborator-call trace of a fresh full run of `sampleModelNs`. -/
def sampleCalls : List Call :=
  [Call.featurize ["b", "features"] ["in.csv"] Option.none ["t"]
     "smiles" Option.none Option.none Option.none,
   Call.trainTestSplit [["b", "features"]] [] [] ["ECFP"]
     "scaffold" "singletask" ["b", "data"],
   Call.fitModel "logistic" (model_fit_params sampleModelNs)
     ["b", "model"] ["b", "data"],
   Call.evalTrainedModel "logistic" ["b", "model"] ["b", "data", "train"]
     ["b", "data", "train.csv"] ["b", "data", "train-stats.txt"] [] "train",
   Call.evalTrainedModel "logistic" ["b", "model"] ["b", "data", "test"]
     ["b", "data", "test.csv"] ["b", "data", "test-stats.txt"] [] "test"]

theorem fit_after_split_witness :
    sampleCalls.filter isFitCall =
      [Call.fitModel "logistic" (model_fit_params sampleModelNs)
        ["b", "model"] ["b", "data"]] := by
  have h := fit_after_split sampleModelNs [] sampleFs sampleCalls rfl
  simpa [sampleModelNs] using h.2.1

/-- C9 fails on the code: `fit_model_wrapper` reads `args.model_name`, but
the `fit` sub-parser stores the `--model` choice under the attribute
`model` and never sets `model_name`; so for every parsed `fit` namespace
the wrapper raises `AttributeError("model_name")` after successfully
extracting the hyperparameter bundle, and `fit_model` is never called —
even though the `model` attribute is present. -/
theorem fit_wrapper_attribute_error (ns : FitNamespace) :
    fit_model_wrapper (mkFitArgs ns) =
      Except.error (PyError.attributeError "model_name") ∧
    getattr (mkFitArgs ns) "model" = Except.ok (Value.str ns.model) ∧
    extract_model_params (mkFitArgs ns) =
      Except.ok [("nb_hidden", Value.int ns.nb_hidden),
        ("learning_rate", Value.float ns.learning_rate),
        ("dropout", Value.float ns.dropout),
        ("nb_epoch", Value.int ns.nb_epoch),
        ("decay", Value.float ns.decay),
        ("batch_size", Value.int ns.batch_size),
        ("loss_function", Value.str ns.loss_function),
        ("activation", Value.str ns.activation),
        ("momentum", Value.float ns.momentum),
        ("nesterov", Value.bool ns.nesterov)] :=
  ⟨rfl, rfl, rfl⟩

/-- C10 fails on the code: `eval_trained_model_wrapper` reads `args.model`
(then `args.model_dir`, `args.data_dir`, `args.output_transforms`), but the
`eval` sub-parser only sets `saved_model`, `saved_data`, `csv_out` and
`stats_out`; so for every parsed `eval` namespace the wrapper raises
`AttributeError("model")` and `eval_trained_model` is never called — even
though all four attributes the claim names are present. -/
theorem eval_wrapper_attribute_error (ns : EvalNamespace) :
    eval_trained_model_wrapper (mkEvalArgs ns) =
      Except.error (PyError.attributeError "model") ∧
    getattr (mkEvalArgs ns) "saved_model" =
      Except.ok (Value.strList ns.saved_model) ∧
    getattr (mkEvalArgs ns) "saved_data" =
      Except.ok (Value.strList ns.saved_data) ∧
    getattr (mkEvalArgs ns) "csv_out" =
      Except.ok (Value.strList ns.csv_out) ∧
    getattr (mkEvalArgs ns) "stats_out" =
      Except.ok (Value.strList ns.stats_out) :=
  ⟨rfl, rfl, rfl, rfl, rfl⟩
